import Mathlib

/-!
Verification of the authentication-gating and secure-voting-session logic of
the Voting-application mobile client.

The development shallowly embeds the relevant TypeScript/React-Native code:

* src/app/(tabs)/vote.tsx        -- the vote screen (SecureVotingSession)
* src/utils/useAuthProtection.ts -- the global auth guard hook
* src/components/AuthProtectedScreen.tsx -- the per-screen auth guard
* src/utils/authStorage.ts and the profile screen -- credential predicates
  and the 401 handling of fetchUserProfile

React component state (the useState hooks of VoteScreen) becomes a record;
async handlers become pure functions from the pre-state, the values produced
at their await points (token read result, API outcome) and the user events,
to the post-state together with a list of externally visible effects
(storage reads, HTTP calls, navigation, alerts).  JSX rendering becomes a
total function from screen state to an abstract Screen value.
-/

/-- JavaScript truthiness of a possibly absent string: undefined/null and
the empty string are falsy, every other string is truthy. -/
def truthy : Option String → Bool
  | none => false
  | some s => s != ""

/-- Whether the first list starts with the second. -/
def charsStartWith : List Char → List Char → Bool
  | _, [] => true
  | [], _ :: _ => false
  | c :: cs, p :: ps => c == p && charsStartWith cs ps

/-- Whether the second list occurs inside the first. -/
def charsContain : List Char → List Char → Bool
  | [], pat => pat.isEmpty
  | c :: cs, pat => charsStartWith (c :: cs) pat || charsContain cs pat

/-- JavaScript str.match(/pat/) is truthy exactly when pat occurs as a
substring of str (the regular expressions used by the code are plain
words). -/
def matchContains (s pat : String) : Bool :=
  charsContain s.data pat.data

/-- One option (candidate) of an event, from the Option interface of
vote.tsx. -/
structure OptionData where
  name : String
  imageUrl : String
  voteCount : Nat
  oid : String
deriving DecidableEq, Repr

/-- Event payload, from the EventData interface of vote.tsx.  The options
field is optional because the render code guards on eventData.options being
present. -/
structure EventData where
  mid : String
  eventId : String
  title : String
  description : String
  imageUrl : String
  options : Option (List OptionData)
deriving DecidableEq, Repr

/-- The useState hooks of VoteScreen in vote.tsx, plus the appState ref. -/
structure VoteScreenState where
  eventData : Option EventData
  loading : Bool
  error : Option String
  selectedOption : Option String
  showCandidates : Bool
  voting : Bool
  showConfirmation : Bool
  hasAlreadyVoted : Bool
  secureVotingMode : Bool
  appState : String
deriving DecidableEq, Repr

/-- Externally visible effects of the handlers: credential-store accesses,
HTTP requests, navigation and alerts. -/
inductive Effect where
  | tokenRead : Effect
  | userDataRead : Effect
  | httpGet : String → Effect
  | httpPost : String → Effect
  | navReplace : String → Effect
  | alertShown : String → Effect
  | clearAuth : Effect
  | storeUser : Effect
  | fetchCall : Effect
deriving DecidableEq, Repr

/-- Whether an effect is a navigation replace (a redirect). -/
def isNavReplace : Effect → Bool
  | Effect.navReplace _ => true
  | _ => false

/-- Number of redirects in an effect list. -/
def redirectCount (es : List Effect) : Nat :=
  (es.filter isNavReplace).length

/-- An axios error as inspected by the catch blocks: err.response may be
absent (network failure); when present it carries a status and possibly a
message in its data. -/
def ErrResponse : Type := Option (Nat × Option String)

/-- The status of an axios error, err.response?.status. -/
def respStatus (r : ErrResponse) : Option Nat :=
  Option.map Prod.fst r

/-- The distinguished already-voted check shared by fetchEventData and
handleVote: err.response && err.response.status === 400 &&
err.response.data && err.response.data.message === "User has already
voted". -/
def isAlreadyVotedResp : ErrResponse → Bool
  | some (status, some msg) => status == 400 && msg == "User has already voted"
  | _ => false

/-- Outcome of the GET event call awaited inside fetchEventData: on axios
success the body may or may not carry an event object (response.data.event)
and a hasVoted flag; otherwise the catch block sees an error response. -/
inductive FetchOutcome where
  | ok : Option EventData → Bool → FetchOutcome
  | err : ErrResponse → FetchOutcome

/-- Outcome of the POST vote call awaited inside handleVote. -/
inductive VoteOutcome where
  | ok : VoteOutcome
  | err : ErrResponse → VoteOutcome

/-- URL of the GET event endpoint used by fetchEventData. -/
def eventUrl (eid : Option String) : String :=
  "http://127.0.0.1:3001/api/event/" ++ eid.getD "" ++ "/"

/-- URL of the POST vote endpoint used by handleVote. -/
def voteUrl (eid : Option String) : String :=
  "http://127.0.0.1:3001/api/event/" ++ eid.getD "" ++ "/vote/"

/-- fetchEventData of vote.tsx as a pure function.  The token parameter is
the value produced by the awaited getAuthToken call (which never throws: it
catches internally and returns null), the outcome parameter the result of
the awaited GET.  Returns the post-state and the effects in program
order. -/
def fetchEventData (eid token : Option String) (outcome : FetchOutcome)
    (s : VoteScreenState) : VoteScreenState × List Effect :=
  if truthy eid = false then (s, [])
  else
    let s1 := { s with loading := true }
    if truthy token = false then
      ({ s1 with error := some "Please sign in to access this feature.",
                 loading := false },
       [Effect.tokenRead, Effect.navReplace "/Signin"])
    else
      let es := [Effect.tokenRead, Effect.httpGet (eventUrl eid)]
      match outcome with
      | FetchOutcome.ok ev hasVoted =>
        match ev with
        | some e =>
          let s2 := { s1 with eventData := some e }
          let s3 := if hasVoted then { s2 with hasAlreadyVoted := true } else s2
          ({ s3 with loading := false }, es)
        | none =>
          ({ s1 with error := some "Invalid response format from the server",
                     loading := false }, es)
      | FetchOutcome.err resp =>
        if isAlreadyVotedResp resp then
          ({ s1 with hasAlreadyVoted := true, loading := false }, es)
        else
          ({ s1 with
               error := some ("Failed to load event data for session: "
                 ++ eid.getD "" ++ ". Please try again."),
               loading := false }, es)

/-- The mount effect of VoteScreen: with no usable session id it sets the
error and stops loading without any storage or network access; otherwise it
runs fetchEventData. -/
def mountEffect (eid token : Option String) (outcome : FetchOutcome)
    (s : VoteScreenState) : VoteScreenState × List Effect :=
  if truthy eid = false then
    ({ s with error := some "No session ID provided. Please go back and try again.",
              loading := false }, [])
  else fetchEventData eid token outcome s

/-- handleAppStateChange of vote.tsx.  prev is the appState ref, next the
delivered status string.  When the session is in secure mode and the app
moves from an active-matching state to one matching inactive or background,
the interruption alert is shown; its single OK button tears the session
down (secure mode off, candidates hidden), which we apply directly.  The
ref is updated to the new status in every case. -/
def handleAppStateChange (nextAppState : String) (s : VoteScreenState) :
    VoteScreenState :=
  let interrupted := s.secureVotingMode
    && matchContains s.appState "active"
    && (matchContains nextAppState "inactive" || matchContains nextAppState "background")
  let s1 := if interrupted then
      { s with secureVotingMode := false, showCandidates := false }
    else s
  { s1 with appState := nextAppState }

/-- enterSecureVotingMode of vote.tsx, after the user confirms the
Enter-Secure-Mode prompt (native platform). -/
def enterSecureVotingMode (s : VoteScreenState) : VoteScreenState :=
  { s with secureVotingMode := true, showCandidates := true }

/-- handleSelectOption of vote.tsx: last selection wins. -/
def handleSelectOption (optionName : String) (s : VoteScreenState) :
    VoteScreenState :=
  { s with selectedOption := some optionName }

/-- handleConfirmationClose of vote.tsx. -/
def handleConfirmationClose (s : VoteScreenState) : VoteScreenState :=
  { s with showConfirmation := false, selectedOption := none,
           showCandidates := false, secureVotingMode := false }

/-- The first half of handleVote, up to the await of the POST: the guard
(!selectedOption || !eventId), setVoting(true), the token read, and the
missing-token branch (alert, secure mode off, redirect; the finally clause
resets voting).  When the token is present the POST is issued and the state
is left awaiting its resolution. -/
def handleVoteStart (eid token : Option String) (s : VoteScreenState) :
    VoteScreenState × List Effect :=
  if !(truthy s.selectedOption) || !(truthy eid) then (s, [])
  else
    let s1 := { s with voting := true }
    if truthy token = false then
      ({ s1 with secureVotingMode := false, voting := false },
       [Effect.tokenRead, Effect.alertShown "Authentication Required",
        Effect.navReplace "/Signin"])
    else
      (s1, [Effect.tokenRead, Effect.httpPost (voteUrl eid)])

/-- The continuation of handleVote after the POST resolves: on success the
confirmation is shown and a refresh fetch is started; on the distinguished
already-voted failure hasAlreadyVoted is set; on any other failure an alert
is shown.  The finally clause resets voting in every case. -/
def handleVoteResolve (outcome : VoteOutcome) (s : VoteScreenState) :
    VoteScreenState × List Effect :=
  match outcome with
  | VoteOutcome.ok =>
    ({ s with showConfirmation := true, voting := false }, [Effect.fetchCall])
  | VoteOutcome.err resp =>
    if isAlreadyVotedResp resp then
      ({ s with hasAlreadyVoted := true, voting := false }, [])
    else
      ({ s with voting := false }, [Effect.alertShown "Voting Error"])

/-- handleVote of vote.tsx run to completion without interruption: the
start phase followed, when a POST was issued, by the resolution of that
POST. -/
def handleVote (eid token : Option String) (outcome : VoteOutcome)
    (s : VoteScreenState) : VoteScreenState × List Effect :=
  if !(truthy s.selectedOption) || !(truthy eid) then (s, [])
  else
    let r1 := handleVoteStart eid token s
    if truthy token = false then r1
    else
      let r2 := handleVoteResolve outcome r1.1
      (r2.1, r1.2 ++ r2.2)

/-- The confirmation modal text of vote.tsx: You have successfully voted
for {selectedOption} in the {eventData?.title} event.  JSX renders an
absent value as the empty string. -/
def confirmationMessage (s : VoteScreenState) : String :=
  "You have successfully voted for " ++ s.selectedOption.getD ""
    ++ " in the "
    ++ (match s.eventData with | some ev => ev.title | none => "")
    ++ " event."

/-- Abstraction of what VoteScreen renders, following the if-chain of the
component body. -/
inductive Screen where
  | loadingScreen : Screen
  | errorScreen : String → Screen
  | noDataScreen : Screen
  | alreadyVotedScreen : EventData → Screen
  | candidatesScreen : Bool → List OptionData → Option String → Bool → Bool → Screen
  | detailsScreen : String → Bool → Screen
deriving DecidableEq, Repr

/-- The render function of VoteScreen: loading, then error, then missing
or options-less event data, then the already-voted page, then the
candidates view (carrying secure flag, options, current selection,
confirmation-modal visibility and the voting flag that disables the vote
button), else the event-details view. -/
def render (s : VoteScreenState) : Screen :=
  if s.loading then Screen.loadingScreen
  else match s.error with
  | some msg => Screen.errorScreen msg
  | none =>
    match s.eventData with
    | none => Screen.noDataScreen
    | some ev =>
      match ev.options with
      | none => Screen.noDataScreen
      | some opts =>
        if s.hasAlreadyVoted then Screen.alreadyVotedScreen ev
        else if s.showCandidates then
          Screen.candidatesScreen s.secureVotingMode opts s.selectedOption
            s.showConfirmation s.voting
        else Screen.detailsScreen ev.title s.showConfirmation

/-- Whether the rendered screen lets the user select an option: only the
candidates view does, and a visible confirmation modal blocks touches to
the list beneath it. -/
def screenOffersSelection : Screen → Bool
  | Screen.candidatesScreen _ _ _ confVisible _ => !confVisible
  | _ => false

/-- Whether the rendered screen lets the user trigger handleVote: the vote
button exists only in the candidates view with a truthy selection, is
disabled while voting, and a visible confirmation modal blocks it. -/
def screenOffersVote : Screen → Bool
  | Screen.candidatesScreen _ _ sel confVisible voting =>
      truthy sel && !confVisible && !voting
  | _ => false

/-- Public allow-list of useAuthProtection.ts. -/
def publicRoutes : List String := ["Signin", "register", "(tabs)"]

/-- checkAuthStatus of the useAuthProtection hook: reads the token (the
read itself never throws, it resolves to null on storage failure), takes
the last route segment as the current route, and issues a single replace
to redirectTo when authentication is required, the token is falsy and the
route is not public. -/
def checkAuthStatus (requireAuth : Bool) (redirectTo : String)
    (segments : List String) (token : Option String) : List Effect :=
  let isAuth := truthy token
  let currentRoute := segments.getLast?
  let isPublicRoute := match currentRoute with
    | some r => publicRoutes.contains r
    | none => false
  let needsAuth := requireAuth && !isAuth && !isPublicRoute
  Effect.tokenRead :: (if needsAuth then [Effect.navReplace redirectTo] else [])

/-- checkAuth of AuthProtectedScreen: reads the token; a falsy token
redirects to sign-in and leaves isAuthenticated false, otherwise
isAuthenticated becomes true.  Returns the effects and the resulting
isAuthenticated flag. -/
def authProtectedCheckAuth (token : Option String) : List Effect × Bool :=
  if truthy token = false then
    ([Effect.tokenRead, Effect.navReplace "/Signin"], false)
  else ([Effect.tokenRead], true)

/-- Whether the last segment of the current route is on the public
allow-list, as computed inside checkAuthStatus. -/
def currentRouteIsPublic (segments : List String) : Bool :=
  match segments.getLast? with
  | some r => publicRoutes.contains r
  | none => false

/-- isAuthenticated of authStorage.ts: token !== null.  A stored empty
string still counts as authenticated. -/
def authStorageIsAuthenticated (token : Option String) : Bool :=
  token != none

/-- isAuthenticated of useAuthProtection.ts: !!token.  A stored empty
string counts as unauthenticated. -/
def authProtectionIsAuthenticated (token : Option String) : Bool :=
  truthy token

/-- Base API URL of apiConfig.ts. -/
def API_BASE_URL : String := "https://decentralizedsecurevoting.onrender.com/api"

/-- Outcome of the GET profile call of fetchUserProfile: on success the
body may or may not carry a user object; otherwise the catch block sees an
error response. -/
inductive ProfileOutcome where
  | ok : Bool → ProfileOutcome
  | err : ErrResponse → ProfileOutcome

/-- The effects of fetchUserProfile on the profile screen: read the cached
user, read the token (falsy token redirects to sign-in), otherwise GET the
profile; a user payload is cached back, and a 401 error clears the
credential store and redirects to sign-in.  View-state updates (profile,
error, loading) are not needed by the claims and are omitted. -/
def fetchUserProfileEffects (token : Option String)
    (outcome : ProfileOutcome) : List Effect :=
  [Effect.userDataRead, Effect.tokenRead] ++
  (if truthy token = false then [Effect.navReplace "/Signin"]
   else [Effect.httpGet (API_BASE_URL ++ "/auth/profile/")] ++
     match outcome with
     | ProfileOutcome.ok userPresent =>
         if userPresent then [Effect.storeUser] else []
     | ProfileOutcome.err resp =>
         if respStatus resp == some 401 then
           [Effect.clearAuth, Effect.navReplace "/Signin"]
         else [])

/-! ### Concrete demonstration data -/

/-- A concrete candidate used in the demonstration traces. -/
def aliceOption : OptionData :=
  { name := "Alice", imageUrl := "", voteCount := 0, oid := "o1" }

/-- A second concrete candidate. -/
def bobOption : OptionData :=
  { name := "Bob", imageUrl := "", voteCount := 0, oid := "o2" }

/-- A concrete event used in the demonstration traces. -/
def demoEvent : EventData :=
  { mid := "e1", eventId := "E1", title := "Club Election",
    description := "", imageUrl := "", options := some [aliceOption, bobOption] }

/-- The session route parameter of the demonstration traces. -/
def demoEventId : Option String := some "evt1"

/-- Screen state of the vote screen after the event data has loaded:
PreEntry in the terms of the specification. -/
def eventLoaded : VoteScreenState :=
  { eventData := some demoEvent, loading := false, error := none,
    selectedOption := none, showCandidates := false, voting := false,
    showConfirmation := false, hasAlreadyVoted := false,
    secureVotingMode := false, appState := "active" }

/-- After confirming entry into secure voting mode. -/
def afterEnter : VoteScreenState := enterSecureVotingMode eventLoaded

/-- After selecting the option Alice. -/
def afterSelect : VoteScreenState := handleSelectOption "Alice" afterEnter

/-- After pressing the vote button with a stored token: the POST is in
flight (phase Submitting). -/
def duringSubmit : VoteScreenState :=
  (handleVoteStart demoEventId (some "tok123") afterSelect).1

/-- After the app is backgrounded while the POST is in flight and the user
acknowledges the interruption alert: the session is torn down. -/
def afterInterrupt : VoteScreenState :=
  handleAppStateChange "background" duringSubmit

/-- The late arrival of the POST success after the interruption. -/
def lateSuccess : VoteScreenState :=
  (handleVoteResolve VoteOutcome.ok afterInterrupt).1

/-- The state after an uninterrupted successful submit: the confirmation
modal is shown (phase Confirmed). -/
def confirmedState : VoteScreenState :=
  (handleVoteResolve VoteOutcome.ok duringSubmit).1

/-- The already-voted error response of the vote API. -/
def alreadyVotedResp : ErrResponse := some (400, some "User has already voted")

/-- The state after a submit rejected with the already-voted condition. -/
def alreadyVotedState : VoteScreenState :=
  (handleVoteResolve (VoteOutcome.err alreadyVotedResp) duringSubmit).1

/-- After the user closes the confirmation modal. -/
def confirmedClosed : VoteScreenState := handleConfirmationClose confirmedState

/-- A 401 authorization-failure response. -/
def resp401 : ErrResponse := some (401, some "Unauthorized")

/-! ### Shared lemmas -/

/-- In any screen state whose session has reached the already-voted or the
confirmed condition, the rendered screen offers neither option selection
nor a vote button: the already-voted page has no candidate list, and a
visible confirmation modal blocks the candidates view beneath it. -/
theorem offers_none_when_done (s : VoteScreenState)
    (h : s.hasAlreadyVoted = true ∨ s.showConfirmation = true) :
    screenOffersSelection (render s) = false ∧ screenOffersVote (render s) = false := by
  unfold render screenOffersSelection screenOffersVote
  rcases s with ⟨ed, ld, er, sel, sc, vt, scf, hav, svm, app⟩
  simp only at h
  cases ld
  · cases er
    · cases ed
      · simp
      · rename_i ev
        cases hopts : ev.options
        · simp [hopts]
        · rcases h with h | h
          · subst h; simp [hopts]
          · subst h
            cases hav <;> cases sc <;> simp [hopts]
    · simp
  · simp

/-! ### Claims -/

/-- Claim C1: a lifecycle interruption while a submit is in flight must
detach the session from the pending POST, so the late success must not set
the confirmation.  The code violates this: after the backgrounding tears
the session down (secure mode off, candidates hidden, no confirmation),
the deferred resolution of the POST still sets showConfirmation, and the
rendered screen shows the confirmation modal. -/
theorem interrupted_submit_late_success_sets_confirmation :
    duringSubmit.voting = true ∧
    afterInterrupt.secureVotingMode = false ∧
    afterInterrupt.showCandidates = false ∧
    afterInterrupt.showConfirmation = false ∧
    lateSuccess.showConfirmation = true ∧
    render lateSuccess = Screen.detailsScreen "Club Election" true := by decide

/-- Claim C2, counterexample: immediately after a successful submit the
confirmation is shown (phase Confirmed) but secureVotingMode is still
true, and after a submit rejected with the already-voted condition
hasAlreadyVoted is set but secureVotingMode is still true: the lock is not
released on entering those phases. -/
theorem confirmed_state_keeps_secure_mode :
    (confirmedState.showConfirmation = true ∧
     confirmedState.secureVotingMode = true) ∧
    (alreadyVotedState.hasAlreadyVoted = true ∧
     alreadyVotedState.secureVotingMode = true) := by decide

/-- Claim C2 as amended: in the Confirmed and AlreadyVoted conditions no
further option selection or vote is possible, and closing the confirmation
releases the lock and clears the selection; the lock release happens at
session close, not on entering the phase. -/
theorem done_blocks_selection_and_close_releases_lock (s : VoteScreenState)
    (h : s.hasAlreadyVoted = true ∨ s.showConfirmation = true) :
    screenOffersSelection (render s) = false ∧
    screenOffersVote (render s) = false ∧
    (handleConfirmationClose s).secureVotingMode = false ∧
    (handleConfirmationClose s).selectedOption = none := by
  have hoffers := offers_none_when_done s h
  exact ⟨hoffers.1, hoffers.2, rfl, rfl⟩

/-- Witness for the amended claim C2, at the concrete confirmed state of
the demonstration trace. -/
theorem done_blocks_selection_witness :
    screenOffersSelection (render confirmedState) = false ∧
    screenOffersVote (render confirmedState) = false ∧
    (handleConfirmationClose confirmedState).secureVotingMode = false ∧
    (handleConfirmationClose confirmedState).selectedOption = none :=
  done_blocks_selection_and_close_releases_lock confirmedState (Or.inr (by decide))

/-- Claim C3, counterexample: with no stored token on a protected route,
running the global guard check and the screen guard check in the same
unauthenticated window issues two redirects, not exactly one. -/
theorem dual_guard_issues_two_redirects :
    redirectCount (checkAuthStatus true "/Signin" ["(tabs)", "vote"] none
      ++ (authProtectedCheckAuth none).1) = 2 := by decide

/-- Claim C3 as amended: each guard invocation issues at most one redirect
per check, and every redirect issued by either guard targets the sign-in
route, so repeated checks in the same window only repeat the same
replace; but when both guards run, each issues its own replace. -/
theorem each_guard_redirects_at_most_once_to_signin
    (segments : List String) (token : Option String) :
    redirectCount (checkAuthStatus true "/Signin" segments token) ≤ 1 ∧
    redirectCount (authProtectedCheckAuth token).1 ≤ 1 ∧
    ((checkAuthStatus true "/Signin" segments token
        ++ (authProtectedCheckAuth token).1).filter isNavReplace).all
      (fun e => e == Effect.navReplace "/Signin") = true := by
  unfold checkAuthStatus authProtectedCheckAuth redirectCount
  cases htok : truthy token
  case false =>
    simp [isNavReplace]
    split <;> simp [isNavReplace]
  case true =>
    simp [isNavReplace]

/-- Claim C4: a route whose last segment is on the public allow-list never
triggers a redirect, whatever the token; any other route with an absent
token yields exactly the token read followed by a navigation replace to
the sign-in route. -/
theorem checkAccess_public_allowlist_and_missing_token
    (segments : List String) (token : Option String) :
    (currentRouteIsPublic segments = true →
      redirectCount (checkAuthStatus true "/Signin" segments token) = 0) ∧
    (currentRouteIsPublic segments = false → token = none →
      checkAuthStatus true "/Signin" segments token
        = [Effect.tokenRead, Effect.navReplace "/Signin"]) := by
  unfold checkAuthStatus currentRouteIsPublic redirectCount
  cases hr : segments.getLast? <;>
    constructor <;> intro h <;> simp_all [isNavReplace, truthy]

/-- Witness for claim C4: the sign-in route with no token is never gated,
and the vote tab with no token is redirected. -/
theorem checkAccess_witness :
    redirectCount (checkAuthStatus true "/Signin" ["Signin"] none) = 0 ∧
    checkAuthStatus true "/Signin" ["(tabs)", "vote"] none
      = [Effect.tokenRead, Effect.navReplace "/Signin"] :=
  ⟨(checkAccess_public_allowlist_and_missing_token ["Signin"] none).1 (by decide),
   (checkAccess_public_allowlist_and_missing_token ["(tabs)", "vote"] none).2
     (by decide) rfl⟩

/-- Claim C5: invoking handleVote with no selected option returns before
any credential read or network call: the state is unchanged and the effect
list is empty, whatever the token and whatever the API would answer. -/
theorem handleVote_null_selection_rejected
    (eid token : Option String) (r : VoteOutcome) (s : VoteScreenState)
    (h : s.selectedOption = none) : handleVote eid token r s = (s, []) := by
  unfold handleVote
  simp [h, truthy]

/-- Witness for claim C5, at the loaded demonstration state, which has no
selection. -/
theorem handleVote_null_selection_witness :
    handleVote demoEventId (some "tok123") VoteOutcome.ok eventLoaded
      = (eventLoaded, []) :=
  handleVote_null_selection_rejected demoEventId (some "tok123")
    VoteOutcome.ok eventLoaded rfl

/-- Claim C6: a 400 response carrying the message User has already voted,
whether on the initial fetch or on a submit, sets hasAlreadyVoted rather
than the generic error (the fetch leaves the error field untouched and the
submit emits no error alert), and the screen rendered from the resulting
state offers neither selection nor a vote button. -/
theorem already_voted_condition_reaches_terminal_state
    (s : VoteScreenState) (eid token : Option String) (resp : ErrResponse)
    (heid : truthy eid = true) (htok : truthy token = true)
    (hav : isAlreadyVotedResp resp = true) :
    (fetchEventData eid token (FetchOutcome.err resp) s).1.hasAlreadyVoted = true ∧
    (fetchEventData eid token (FetchOutcome.err resp) s).1.error = s.error ∧
    screenOffersVote (render (fetchEventData eid token (FetchOutcome.err resp) s).1) = false ∧
    (handleVoteResolve (VoteOutcome.err resp) s).1.hasAlreadyVoted = true ∧
    (handleVoteResolve (VoteOutcome.err resp) s).2 = [] ∧
    screenOffersSelection (render (handleVoteResolve (VoteOutcome.err resp) s).1) = false ∧
    screenOffersVote (render (handleVoteResolve (VoteOutcome.err resp) s).1) = false := by
  have hfetch : (fetchEventData eid token (FetchOutcome.err resp) s).1.hasAlreadyVoted = true := by
    unfold fetchEventData
    simp [heid, htok, hav]
  have hresolve : (handleVoteResolve (VoteOutcome.err resp) s).1.hasAlreadyVoted = true := by
    unfold handleVoteResolve
    simp [hav]
  have hof := offers_none_when_done _ (Or.inl hfetch)
  have hor := offers_none_when_done _ (Or.inl hresolve)
  refine ⟨hfetch, ?_, hof.2, hresolve, ?_, hor.1, hor.2⟩
  · unfold fetchEventData
    simp [heid, htok, hav]
  · unfold handleVoteResolve
    simp [hav]

/-- Witness for claim C6, at the concrete already-voted response of the
demonstration trace. -/
theorem already_voted_condition_witness :
    (fetchEventData demoEventId (some "tok123")
        (FetchOutcome.err alreadyVotedResp) eventLoaded).1.hasAlreadyVoted = true ∧
    (fetchEventData demoEventId (some "tok123")
        (FetchOutcome.err alreadyVotedResp) eventLoaded).1.error = eventLoaded.error ∧
    screenOffersVote (render (fetchEventData demoEventId (some "tok123")
        (FetchOutcome.err alreadyVotedResp) eventLoaded).1) = false ∧
    (handleVoteResolve (VoteOutcome.err alreadyVotedResp) eventLoaded).1.hasAlreadyVoted = true ∧
    (handleVoteResolve (VoteOutcome.err alreadyVotedResp) eventLoaded).2 = [] ∧
    screenOffersSelection (render (handleVoteResolve
        (VoteOutcome.err alreadyVotedResp) eventLoaded).1) = false ∧
    screenOffersVote (render (handleVoteResolve
        (VoteOutcome.err alreadyVotedResp) eventLoaded).1) = false :=
  already_voted_condition_reaches_terminal_state eventLoaded demoEventId
    (some "tok123") alreadyVotedResp (by decide) (by decide) (by decide)

/-- Claim C7, counterexample: when the vote POST is rejected with a 401
authorization failure, the submit handler only shows the generic voting
error alert; it neither clears the credential store nor redirects, so the
claimed behavior does not hold for every authenticated call. -/
theorem vote_401_does_not_clear_store :
    (handleVoteResolve (VoteOutcome.err resp401) duringSubmit).2
      = [Effect.alertShown "Voting Error"] ∧
    (handleVoteResolve (VoteOutcome.err resp401) duringSubmit).2.contains
      Effect.clearAuth = false ∧
    redirectCount (handleVoteResolve (VoteOutcome.err resp401) duringSubmit).2 = 0 := by
  decide

/-- Claim C7 as amended: on a 401 authorization failure the profile fetch
clears the credential store and redirects to sign-in, but the vote submit
does not: it neither clears the store nor redirects. -/
theorem profile_401_clears_store_vote_401_does_not
    (token : Option String) (resp : ErrResponse) (s : VoteScreenState)
    (htok : truthy token = true) (h401 : respStatus resp = some 401) :
    (fetchUserProfileEffects token (ProfileOutcome.err resp)).contains
      Effect.clearAuth = true ∧
    (fetchUserProfileEffects token (ProfileOutcome.err resp)).contains
      (Effect.navReplace "/Signin") = true ∧
    (handleVoteResolve (VoteOutcome.err resp) s).2.contains Effect.clearAuth = false ∧
    redirectCount (handleVoteResolve (VoteOutcome.err resp) s).2 = 0 := by
  have hnotav : isAlreadyVotedResp resp = false := by
    rcases resp with _ | ⟨st, msg⟩
    · simp [respStatus] at h401
    · unfold respStatus at h401
      simp at h401
      subst h401
      cases msg <;> simp [isAlreadyVotedResp]
  unfold fetchUserProfileEffects handleVoteResolve redirectCount
  simp [htok, h401, hnotav, isNavReplace]

/-- Witness for the amended claim C7, at a concrete expired token and a
concrete 401 response. -/
theorem profile_401_witness :
    (fetchUserProfileEffects (some "expired") (ProfileOutcome.err resp401)).contains
      Effect.clearAuth = true ∧
    (fetchUserProfileEffects (some "expired") (ProfileOutcome.err resp401)).contains
      (Effect.navReplace "/Signin") = true ∧
    (handleVoteResolve (VoteOutcome.err resp401) eventLoaded).2.contains
      Effect.clearAuth = false ∧
    redirectCount (handleVoteResolve (VoteOutcome.err resp401) eventLoaded).2 = 0 :=
  profile_401_clears_store_vote_401_does_not (some "expired") resp401
    eventLoaded (by decide) (by decide)

/-- Claim C8: the round trip of the demonstration trace: entering voting,
selecting Alice, submitting and receiving success shows the confirmation
whose message references Alice and the event title; closing the
confirmation returns to a fresh pre-entry state with no selection,
candidates hidden, secure mode off, rendering the event details view. -/
theorem vote_round_trip_alice :
    confirmedState.showConfirmation = true ∧
    confirmationMessage confirmedState
      = "You have successfully voted for Alice in the Club Election event." ∧
    confirmedClosed.selectedOption = none ∧
    confirmedClosed.showCandidates = false ∧
    confirmedClosed.secureVotingMode = false ∧
    confirmedClosed.showConfirmation = false ∧
    render confirmedClosed = Screen.detailsScreen "Club Election" false := by decide

/-- Claim C9, counterexample: on a stored empty-string token the two
exported authentication predicates disagree: the storage one counts it as
authenticated, the protection one does not. -/
theorem isAuthenticated_disagree_on_empty_token :
    authStorageIsAuthenticated (some "") = true ∧
    authProtectionIsAuthenticated (some "") = false := by decide

/-- Claim C9 as amended: the two predicates agree on every credential
state except a stored empty-string token, where they differ. -/
theorem isAuthenticated_agree_iff_not_empty_token (t : Option String) :
    (authStorageIsAuthenticated t == authProtectionIsAuthenticated t)
      = (t != some "") := by
  cases t with
  | none => rfl
  | some s =>
    unfold authStorageIsAuthenticated authProtectionIsAuthenticated truthy
    by_cases hs : s = ""
    · subst hs; rfl
    · have h1 : (s != "") = true := by simp [bne, hs]
      have h2 : (some s != some "") = true := by simp [bne, hs]
      simp [h1, h2]

/-- Claim C10: mounting the vote screen with an absent or empty session id
sets the no-session error and ends loading without any credential read or
network request, and fetchEventData is a no-op in that case, whatever the
token and whatever the API would answer. -/
theorem missing_eventId_short_circuits
    (eid token : Option String) (outcome : FetchOutcome) (s : VoteScreenState)
    (h : truthy eid = false) :
    mountEffect eid token outcome s =
      ({ s with error := some "No session ID provided. Please go back and try again.",
                loading := false }, []) ∧
    fetchEventData eid token outcome s = (s, []) := by
  unfold mountEffect fetchEventData
  simp [h]

/-- Witness for claim C10, at an absent session id. -/
theorem missing_eventId_witness :
    mountEffect none (some "tok123") (FetchOutcome.ok none false) eventLoaded =
      ({ eventLoaded with
           error := some "No session ID provided. Please go back and try again.",
           loading := false }, []) ∧
    fetchEventData none (some "tok123") (FetchOutcome.ok none false) eventLoaded
      = (eventLoaded, []) :=
  missing_eventId_short_circuits none (some "tok123")
    (FetchOutcome.ok none false) eventLoaded rfl
